import Mathlib

/-!
Verification of the record store and entity operations of
`universal_dashboard_basic.py`, a personal productivity dashboard.

The store is a dict of four lists (`tasks`, `notes`, `habits`, `mood_log`),
persisted with `pickle`.  Each mutation handler validates its input, mutates
the in-memory store, and persists it.  We embed the data model and each
handler as Lean functions below, shallowly: dates are their ISO-8601 strings
(the code stores `date.isoformat()`), Python `dict.get` defaults become
`Option`, and `str.strip` is modelled explicitly over the character list.
-/

namespace Dashboard

/-- The Python whitespace characters stripped by `str.strip()`
(space, tab, newline, carriage return, vertical tab, form feed). -/
def pyIsSpace (c : Char) : Bool :=
  c = ' ' || c = '\t' || c = '\n' || c = '\r' || c = '\x0b' || c = '\x0c'

/-- Python `s.strip()`: remove leading and trailing whitespace characters. -/
def pyStrip (s : String) : String :=
  String.mk ((s.toList.dropWhile pyIsSpace).rdropWhile pyIsSpace)

/-- A task record, lines 70-75 of the source: `name`, `priority`, `due`
(ISO date string) and `status`.  `status` is `Option` because records loaded
from an older persisted file may lack the key; the code reads it with
`t.get("status", ...)`. -/
structure Task where
  name : String
  priority : String
  due : String
  status : Option String
deriving Repr, DecidableEq

/-- A note record, lines 124-128 of the source. -/
structure Note where
  title : String
  content : String
  date : String
deriving Repr, DecidableEq

/-- A habit record, line 153 of the source.  `streak` is `Option` because the
code reads it with `.get("streak", 0)`. -/
structure Habit where
  name : String
  streak : Option Nat
deriving Repr, DecidableEq

/-- A mood log entry, line 178 of the source. -/
structure MoodEntry where
  date : String
  mood : String
deriving Repr, DecidableEq

/-- The store: the dict `{"tasks": ..., "notes": ..., "habits": ..., "mood_log": ...}`. -/
structure Store where
  tasks : List Task
  notes : List Note
  habits : List Habit
  mood_log : List MoodEntry
deriving Repr, DecidableEq

/-- The freshly-initialized store `{"tasks": [], "notes": [], "habits": [], "mood_log": []}`,
lines 22 and 24 of the source. -/
def emptyStore : Store := ⟨[], [], [], []⟩

/-- The persisted-file state: the file may be absent, present but
undeserializable (`pickle.load` raises), or hold a pickled store.
`pickle` round-trips plain dict/list/str/int data exactly, so a successful
`pickle.load` of a file written by `save_data` is modelled as returning the
stored value. -/
inductive FileState where
  | absent
  | corrupt
  | stored (s : Store)
deriving Repr, DecidableEq

/-- Function `load_data`, lines 15-24 of the source: if the file exists, try to
unpickle it, falling back to the empty store on any exception; if it does
not exist, return the empty store. -/
def load_data : FileState → Store
  | .absent => emptyStore
  | .corrupt => emptyStore
  | .stored s => s

/-- Function `save_data`, lines 26-28 of the source: pickle the full store into the file. -/
def save_data (s : Store) : FileState := .stored s

/-- The "Add task" handler, lines 66-78 of the source: if the stripped name
is empty, warn and leave the store unchanged; otherwise append a task with
the stripped name, the selected priority, the ISO due date, and status
`"Pending"`. -/
def add_task (d : Store) (task_name priority due_iso : String) : Store :=
  if pyStrip task_name = "" then d
  else { d with tasks := d.tasks ++ [⟨pyStrip task_name, priority, due_iso, some "Pending"⟩] }

/-- The "Save changes" (edit) handler, lines 96-105 of the source:
`data["tasks"][i].update({...})` overwrites all four fields of the task at
index `i` with the stripped new name, new priority, new due date and new
status, with no emptiness check on the name.  `none` models the IndexError
of an out-of-range index. -/
def update_task (d : Store) (i : Nat) (new_name new_priority new_due new_status : String) :
    Option Store :=
  match d.tasks[i]? with
  | none => none
  | some _ =>
      some { d with tasks := d.tasks.set i ⟨pyStrip new_name, new_priority, new_due, some new_status⟩ }

/-- The task "Delete" handler, lines 106-109 of the source:
`data["tasks"].pop(i)` removes the task at index `i`; out of range raises
IndexError, modelled as `none`. -/
def delete_task (d : Store) (i : Nat) : Option Store :=
  if i < d.tasks.length then some { d with tasks := d.tasks.eraseIdx i }
  else none

/-- The "Save note" handler, lines 120-131 of the source: if either the
stripped title or the stripped body is empty, warn and leave the store
unchanged; otherwise append a note with the stripped title, stripped
content and the current ISO date. -/
def add_note (d : Store) (note_title note_body today_iso : String) : Store :=
  if pyStrip note_title = "" || pyStrip note_body = "" then d
  else { d with notes := d.notes ++ [⟨pyStrip note_title, pyStrip note_body, today_iso⟩] }

/-- The notes section display order, line 134 of the source:
`enumerate(reversed(data["notes"]))` shows the notes most recently created
first. -/
def displayed_notes (d : Store) : List Note := d.notes.reverse

/-- The index mapping of line 135 of the source: the note at display
position `j` lives at true index `len(data["notes"]) - 1 - j`. -/
def display_to_true_index (d : Store) (j : Nat) : Nat := d.notes.length - 1 - j

/-- The "Delete Note" handler, lines 138-141 of the source:
`data["notes"].pop(idx)`. -/
def delete_note (d : Store) (idx : Nat) : Option Store :=
  if idx < d.notes.length then some { d with notes := d.notes.eraseIdx idx }
  else none

/-- The "Add habit" handler, lines 151-158 of the source: if the stripped
name is non-empty, append a habit with the stripped name and streak 0. -/
def add_habit (d : Store) (habit_name : String) : Store :=
  if pyStrip habit_name = "" then d
  else { d with habits := d.habits ++ [⟨pyStrip habit_name, some 0⟩] }

/-- The "Mark today" handler, lines 164-167 of the source:
`data["habits"][h_idx]["streak"] = data["habits"][h_idx].get("streak", 0) + 1`,
unconditionally.  `none` models an out-of-range index. -/
def mark_habit_today (d : Store) (h_idx : Nat) : Option Store :=
  match d.habits[h_idx]? with
  | none => none
  | some h =>
      some { d with habits := d.habits.set h_idx { h with streak := some (h.streak.getD 0 + 1) } }

/-- The fixed mood vocabulary, line 175 of the source. -/
def mood_options : List String := ["😢 Sad", "😐 Meh", "🙂 Good", "😃 Great", "🤩 Awesome"]

/-- The "Log mood" handler, lines 177-181 of the source: append
`{"date": today, "mood": mood}` to the mood log. -/
def log_mood (d : Store) (mood today_iso : String) : Store :=
  { d with mood_log := d.mood_log ++ [⟨today_iso, mood⟩] }

/-- The numeric score mapping of lines 186-187 of the source:
`mapping = {mood_options[i]: i + 1 for i in range(len(mood_options))}` and
`df_mood["mood"].map(mapping)`; an unrecognized label maps to no score (NaN). -/
def mood_score (m : String) : Option Nat :=
  (mood_options.indexOf? m).map (fun i => i + 1)

/-- The mood time series plotted at lines 184-189 of the source: one
`(date, score)` point per mood-log entry, in log order. -/
def mood_series (d : Store) : List (String × Option Nat) :=
  d.mood_log.map (fun e => (e.date, mood_score e.mood))

/-- Snapshot counts, lines 200-204 of the source. -/
def total_tasks (d : Store) : Nat := d.tasks.length

/-- The count `sum(1 for t in tasks if t.get("status") == "Completed")`, line 201:
a task with no status key has `t.get("status") = None`, which is not
`"Completed"`. -/
def completed (d : Store) : Nat :=
  d.tasks.countP (fun t => t.status == some "Completed")

/-- The difference `pending = total_tasks - completed`, line 202. -/
def pending (d : Store) : Nat := total_tasks d - completed d

/-- The status shown for a task in the list header, line 82 of the source:
`t.get("status", "Pending")`. -/
def task_display_status (t : Task) : String := t.status.getD "Pending"

/-! ### Helper lemmas -/

/-- If `dropWhile` leaves a nonempty list, its new head fails the predicate. -/
theorem dropWhile_eq_cons_not {α : Type} (p : α → Bool) (l : List α) (a : α) (t : List α)
    (h : l.dropWhile p = a :: t) : p a = false := by
  induction l with
  | nil => simp [List.dropWhile] at h
  | cons x xs ih =>
      rw [List.dropWhile_cons] at h
      by_cases hx : p x = true
      · rw [if_pos hx] at h
        exact ih h
      · rw [if_neg hx] at h
        cases h
        simpa using hx

/-- A list stripped on both ends has nothing left to drop at the front. -/
theorem stripped_dropWhile_eq_self {α : Type} (p : α → Bool) (l : List α) :
    ((l.dropWhile p).rdropWhile p).dropWhile p = (l.dropWhile p).rdropWhile p := by
  cases hcase : (l.dropWhile p).rdropWhile p with
  | nil => simp
  | cons a t =>
      obtain ⟨tail, htail⟩ := List.rdropWhile_prefix p (l.dropWhile p)
      rw [hcase] at htail
      have hpa : p a = false := dropWhile_eq_cons_not p l a (t ++ tail) htail.symm
      simp [List.dropWhile_cons, hpa]

/-- Stripping is idempotent: the output of `pyStrip` has no leading or
trailing whitespace left to remove. -/
theorem pyStrip_idem (s : String) : pyStrip (pyStrip s) = pyStrip s := by
  have h1 : (pyStrip s).toList = (s.toList.dropWhile pyIsSpace).rdropWhile pyIsSpace := rfl
  show String.mk (((pyStrip s).toList.dropWhile pyIsSpace).rdropWhile pyIsSpace) = pyStrip s
  rw [h1, stripped_dropWhile_eq_self, List.rdropWhile_idempotent]
  rfl

/-- Removing the element appended at the end of a list recovers the list. -/
theorem eraseIdx_append_singleton (l : List α) (a : α) :
    (l ++ [a]).eraseIdx l.length = l := by
  rw [List.eraseIdx_eq_take_drop_succ, List.take_left]
  have : (l ++ [a]).drop (l.length + 1) = [] := by
    apply List.drop_eq_nil_of_le
    simp
  rw [this, List.append_nil]

/-! ### Claims -/

/-- C2: for every persisted-file state, `load_data` is a total function
(never raises); on an absent file and on a corrupt (undeserializable) file
it returns the store with four empty lists. -/
theorem load_data_absent_or_corrupt_empty :
    load_data .absent = { tasks := [], notes := [], habits := [], mood_log := [] } ∧
    load_data .corrupt = { tasks := [], notes := [], habits := [], mood_log := [] } :=
  ⟨rfl, rfl⟩

/-- C4: saving any store state and loading it back yields the same store
(pickle round-trips the four-list schema exactly). -/
theorem load_save_roundtrip (S : Store) : load_data (save_data S) = S := rfl

/-- C1: for every input whose name is non-empty after stripping, with a
priority from the fixed set and a date, `add_task` appends exactly one task
with the given fields (the name stored stripped) and status `"Pending"` at
the end of the task list, leaves the other three lists unchanged, and the
pending count of the summary increases by exactly 1. -/
theorem add_task_appends_one_pending (d : Store) (task_name priority due_iso : String)
    (hname : pyStrip task_name ≠ "")
    (hprio : priority ∈ (["Low", "Medium", "High"] : List String)) :
    (add_task d task_name priority due_iso).tasks
      = d.tasks ++ [⟨pyStrip task_name, priority, due_iso, some "Pending"⟩] ∧
    (add_task d task_name priority due_iso).notes = d.notes ∧
    (add_task d task_name priority due_iso).habits = d.habits ∧
    (add_task d task_name priority due_iso).mood_log = d.mood_log ∧
    pending (add_task d task_name priority due_iso) = pending d + 1 := by
  have hadd : add_task d task_name priority due_iso
      = { d with tasks := d.tasks ++ [⟨pyStrip task_name, priority, due_iso, some "Pending"⟩] } := by
    simp [add_task, hname]
  refine ⟨by rw [hadd], by rw [hadd], by rw [hadd], by rw [hadd], ?_⟩
  have hle := List.countP_le_length (fun t : Task => t.status == some "Completed") (l := d.tasks)
  have hone : ((some "Pending" : Option String) == some "Completed") = false := by decide
  simp only [hadd, pending, total_tasks, completed, List.countP_append, List.length_append,
    List.countP_cons, List.countP_nil, hone, if_false, Bool.false_eq_true]
  simp only [List.length_cons, List.length_nil]
  omega

/-- Witness for C1 at a concrete input. -/
theorem add_task_appends_one_pending_witness :
    pyStrip "  Write spec  " ≠ "" ∧
    pending (add_task emptyStore "  Write spec  " "Low" "2026-10-12") = pending emptyStore + 1 :=
  ⟨by decide,
   (add_task_appends_one_pending emptyStore "  Write spec  " "Low" "2026-10-12"
      (by decide) (by decide)).2.2.2.2⟩

/-- C3 counter-evidence: the "Save changes" edit handler has no emptiness
check; updating a task with a name that strips to empty is applied, storing
the empty name, rather than being rejected as a no-op. -/
theorem update_task_empty_name_applied :
    update_task ⟨[⟨"Write spec", "Low", "2026-01-01", some "Pending"⟩], [], [], []⟩
        0 "   " "High" "2026-02-02" "Pending"
      = some ⟨[⟨"", "High", "2026-02-02", some "Pending"⟩], [], [], []⟩ := by
  decide

/-- C5: for every task list and in-range index `i`, the Delete handler
removes exactly the task at index `i`: the result is defined, its length is
one less, tasks before `i` keep their index, and each task previously at an
index greater than `i` moves down by one. -/
theorem delete_task_removes_index (d : Store) (i : Nat) (h : i < d.tasks.length) :
    delete_task d i = some { d with tasks := d.tasks.eraseIdx i } ∧
    (d.tasks.eraseIdx i).length = d.tasks.length - 1 ∧
    (∀ j, j < i → (d.tasks.eraseIdx i)[j]? = d.tasks[j]?) ∧
    (∀ j, i ≤ j → (d.tasks.eraseIdx i)[j]? = d.tasks[j + 1]?) := by
  refine ⟨by simp [delete_task, h], ?_, ?_, ?_⟩
  · rw [List.length_eraseIdx]
    simp [h]
  · intro j hj
    rw [List.getElem?_eraseIdx]
    simp [hj]
  · intro j hj
    rw [List.getElem?_eraseIdx]
    have : ¬ j < i := by omega
    simp [this]

/-- Witness for C5 at a concrete three-task store, deleting index 1. -/
theorem delete_task_removes_index_witness :
    1 < (Store.mk
      [⟨"a", "Low", "2026-01-01", some "Pending"⟩,
       ⟨"b", "Medium", "2026-01-02", some "Pending"⟩,
       ⟨"c", "High", "2026-01-03", some "Completed"⟩] [] [] []).tasks.length ∧
    (delete_task (Store.mk
      [⟨"a", "Low", "2026-01-01", some "Pending"⟩,
       ⟨"b", "Medium", "2026-01-02", some "Pending"⟩,
       ⟨"c", "High", "2026-01-03", some "Completed"⟩] [] [] []) 1
      = some { Store.mk
          [⟨"a", "Low", "2026-01-01", some "Pending"⟩,
           ⟨"b", "Medium", "2026-01-02", some "Pending"⟩,
           ⟨"c", "High", "2026-01-03", some "Completed"⟩] [] [] [] with
          tasks := (Store.mk
            [⟨"a", "Low", "2026-01-01", some "Pending"⟩,
             ⟨"b", "Medium", "2026-01-02", some "Pending"⟩,
             ⟨"c", "High", "2026-01-03", some "Completed"⟩] [] [] []).tasks.eraseIdx 1 }) :=
  ⟨by decide, (delete_task_removes_index _ 1 (by decide)).1⟩

/-- Deleting at the true index that display position 0 maps to, right after
an append, recovers the original store. -/
theorem delete_note_appended (d : Store) (nn : Note) :
    delete_note { d with notes := d.notes ++ [nn] }
      (display_to_true_index { d with notes := d.notes ++ [nn] } 0) = some d := by
  have h0 : display_to_true_index { d with notes := d.notes ++ [nn] } 0 = d.notes.length := by
    simp [display_to_true_index]
  rw [h0]
  unfold delete_note
  have h1 : d.notes.length < ({ d with notes := d.notes ++ [nn] } : Store).notes.length := by
    simp
  rw [if_pos h1]
  congr 1
  show { d with notes := (d.notes ++ [nn]).eraseIdx d.notes.length } = d
  rw [eraseIdx_append_singleton]

/-- C6: notes are displayed most recently created first; the note shown at
display position `j` is the underlying note at true index
`length - 1 - j`, deleting at that mapped index succeeds, and adding a note
and then deleting it at its display position (position 0, newest first)
removes exactly that note, restoring the original store. -/
theorem notes_display_reverse_delete (d : Store) (j : Nat) (hj : j < d.notes.length)
    (title content today : String) (ht : pyStrip title ≠ "") (hc : pyStrip content ≠ "") :
    displayed_notes d = d.notes.reverse ∧
    (displayed_notes d)[j]? = d.notes[display_to_true_index d j]? ∧
    delete_note d (display_to_true_index d j)
      = some { d with notes := d.notes.eraseIdx (display_to_true_index d j) } ∧
    delete_note (add_note d title content today)
      (display_to_true_index (add_note d title content today) 0) = some d := by
  have hadd : add_note d title content today
      = { d with notes := d.notes ++ [⟨pyStrip title, pyStrip content, today⟩] } := by
    simp [add_note, ht, hc]
  refine ⟨rfl, List.getElem?_reverse hj, ?_, ?_⟩
  · have hlt : display_to_true_index d j < d.notes.length := by
      unfold display_to_true_index
      omega
    simp [delete_note, hlt]
  · rw [hadd]
    exact delete_note_appended d ⟨pyStrip title, pyStrip content, today⟩

/-- Witness for C6 at a concrete two-note store, display position 1. -/
theorem notes_display_reverse_delete_witness :
    1 < (Store.mk [] [⟨"n1", "c1", "2026-01-01"⟩, ⟨"n2", "c2", "2026-01-02"⟩] [] []).notes.length ∧
    pyStrip " T " ≠ "" ∧ pyStrip " body " ≠ "" ∧
    delete_note (add_note (Store.mk [] [⟨"n1", "c1", "2026-01-01"⟩, ⟨"n2", "c2", "2026-01-02"⟩] [] [])
        " T " " body " "2026-10-12")
      (display_to_true_index (add_note
        (Store.mk [] [⟨"n1", "c1", "2026-01-01"⟩, ⟨"n2", "c2", "2026-01-02"⟩] [] [])
        " T " " body " "2026-10-12") 0)
      = some (Store.mk [] [⟨"n1", "c1", "2026-01-01"⟩, ⟨"n2", "c2", "2026-01-02"⟩] [] []) :=
  ⟨by decide, by decide, by decide,
   (notes_display_reverse_delete
      (Store.mk [] [⟨"n1", "c1", "2026-01-01"⟩, ⟨"n2", "c2", "2026-01-02"⟩] [] [])
      1 (by decide) " T " " body " "2026-10-12" (by decide) (by decide)).2.2.2⟩

/-- C7: the mood series has one `(date, score)` point per logged entry, in
log order, the score being the 1-based rank of the label in the fixed
vocabulary; logging "😢 Sad", "🤩 Awesome", "🙂 Good" in that order appends
the scores 1, 5, 3 in exactly that order. -/
theorem mood_series_log_order (d : Store) (k : Nat) (d1 d2 d3 : String) :
    (mood_series d)[k]? = (d.mood_log[k]?).map (fun e => (e.date, mood_score e.mood)) ∧
    (mood_series d).length = d.mood_log.length ∧
    mood_series (log_mood (log_mood (log_mood d "😢 Sad" d1) "🤩 Awesome" d2) "🙂 Good" d3)
      = mood_series d ++ [(d1, some 1), (d2, some 5), (d3, some 3)] := by
  have e1 : mood_score "😢 Sad" = some 1 := by decide
  have e2 : mood_score "🤩 Awesome" = some 5 := by decide
  have e3 : mood_score "🙂 Good" = some 3 := by decide
  refine ⟨List.getElem?_map _ _ _, by simp [mood_series], ?_⟩
  simp [mood_series, log_mood, e1, e2, e3]

/-- C8: for every habit list and in-range index, each "Mark today" action
increments the streak counter of that habit by exactly 1, unconditionally (no
date-based deduplication: marking again immediately increments again), and
changes no other habit and no other list. -/
theorem mark_habit_today_increments (d : Store) (i : Nat) (h : Habit)
    (hh : d.habits[i]? = some h) :
    ∃ d2, mark_habit_today d i = some d2 ∧
      d2.habits[i]? = some { h with streak := some (h.streak.getD 0 + 1) } ∧
      (∀ j, j ≠ i → d2.habits[j]? = d.habits[j]?) ∧
      d2.tasks = d.tasks ∧ d2.notes = d.notes ∧ d2.mood_log = d.mood_log ∧
      ∃ d3, mark_habit_today d2 i = some d3 ∧
        d3.habits[i]? = some { h with streak := some (h.streak.getD 0 + 2) } := by
  have hi : i < d.habits.length := by
    by_contra hcon
    push_neg at hcon
    rw [List.getElem?_eq_none hcon] at hh
    exact Option.noConfusion hh
  refine Exists.intro
    { d with habits := d.habits.set i ({ h with streak := some (h.streak.getD 0 + 1) }) }
    ⟨?_, ?_, ?_, rfl, rfl, rfl, ?_⟩
  · unfold mark_habit_today
    rw [hh]
  · show (d.habits.set i ({ h with streak := some (h.streak.getD 0 + 1) }))[i]?
        = some { h with streak := some (h.streak.getD 0 + 1) }
    exact List.getElem?_set_self (by simpa using hi)
  · intro j hj
    show (d.habits.set i ({ h with streak := some (h.streak.getD 0 + 1) }))[j]? = d.habits[j]?
    exact List.getElem?_set_ne (fun he => hj he.symm)
  · refine Exists.intro
      { d with habits := d.habits.set i ({ h with streak := some (h.streak.getD 0 + 2) }) }
      ⟨?_, ?_⟩
    · have hset : ({ d with habits := d.habits.set i ({ h with streak := some (h.streak.getD 0 + 1) }) } : Store).habits[i]? = some ({ h with streak := some (h.streak.getD 0 + 1) } : Habit) :=
        List.getElem?_set_self (by simpa using hi)
      unfold mark_habit_today
      rw [hset]
      have : (d.habits.set i ({ h with streak := some (h.streak.getD 0 + 1) })).set i
            ({ h with streak := some (h.streak.getD 0 + 2) })
          = d.habits.set i ({ h with streak := some (h.streak.getD 0 + 2) }) := by
        rw [List.set_set]
      simp only [Option.some.injEq]
      rw [← this]
      rfl
    · show (d.habits.set i ({ h with streak := some (h.streak.getD 0 + 2) }))[i]?
          = some { h with streak := some (h.streak.getD 0 + 2) }
      exact List.getElem?_set_self (by simpa using hi)

/-- Witness for C8 at a concrete one-habit store. -/
theorem mark_habit_today_increments_witness :
    (Store.mk [] [] [⟨"gym", some 4⟩] []).habits[0]? = some ⟨"gym", some 4⟩ ∧
    ∃ d2, mark_habit_today (Store.mk [] [] [⟨"gym", some 4⟩] []) 0 = some d2 ∧
      d2.habits[0]? = some (⟨"gym", some 5⟩ : Habit) ∧
      (∀ j, j ≠ 0 → d2.habits[j]? = (Store.mk [] [] [⟨"gym", some 4⟩] []).habits[j]?) ∧
      d2.tasks = [] ∧ d2.notes = [] ∧ d2.mood_log = [] ∧
      ∃ d3, mark_habit_today d2 0 = some d3 ∧
        d3.habits[0]? = some (⟨"gym", some 6⟩ : Habit) :=
  ⟨by decide,
   mark_habit_today_increments (Store.mk [] [] [⟨"gym", some 4⟩] []) 0 ⟨"gym", some 4⟩ (by decide)⟩

/-- Stores reachable from the freshly-initialized store through the three
create operations (add task, save note, add habit). -/
inductive ReachableByCreates : Store → Prop where
  | init : ReachableByCreates emptyStore
  | step_task (d : Store) (n p due : String) :
      ReachableByCreates d → ReachableByCreates (add_task d n p due)
  | step_note (d : Store) (t c today : String) :
      ReachableByCreates d → ReachableByCreates (add_note d t c today)
  | step_habit (d : Store) (n : String) :
      ReachableByCreates d → ReachableByCreates (add_habit d n)

/-- Every string field written by a create operation is a fixed point of
stripping, i.e. carries no leading or trailing whitespace. -/
def createdFieldsTrimmed (d : Store) : Prop :=
  (∀ t ∈ d.tasks, pyStrip t.name = t.name) ∧
  (∀ n ∈ d.notes, pyStrip n.title = n.title ∧ pyStrip n.content = n.content) ∧
  (∀ h ∈ d.habits, pyStrip h.name = h.name)

/-- C9: every create operation stores its string fields stripped, so in any
store reachable through the create operations no string
field of a created entity has leading or trailing whitespace. -/
theorem creates_store_trimmed (d : Store) (hr : ReachableByCreates d) :
    createdFieldsTrimmed d := by
  induction hr with
  | init =>
      refine ⟨?_, ?_, ?_⟩ <;> intro x hx <;> simp [emptyStore] at hx
  | step_task d n p due hd ih =>
      obtain ⟨iht, ihn, ihh⟩ := ih
      unfold add_task
      by_cases hn : pyStrip n = ""
      · rw [if_pos hn]
        exact ⟨iht, ihn, ihh⟩
      · rw [if_neg hn]
        refine ⟨?_, ihn, ihh⟩
        intro t htmem
        rw [List.mem_append] at htmem
        rcases htmem with hin | hnew
        · exact iht t hin
        · rw [List.mem_singleton] at hnew
          subst hnew
          exact pyStrip_idem n
  | step_note d t c today hd ih =>
      obtain ⟨iht, ihn, ihh⟩ := ih
      unfold add_note
      by_cases hn : (pyStrip t = "" || pyStrip c = "") = true
      · rw [if_pos hn]
        exact ⟨iht, ihn, ihh⟩
      · rw [if_neg hn]
        refine ⟨iht, ?_, ihh⟩
        intro x hxmem
        rw [List.mem_append] at hxmem
        rcases hxmem with hin | hnew
        · exact ihn x hin
        · rw [List.mem_singleton] at hnew
          subst hnew
          exact ⟨pyStrip_idem t, pyStrip_idem c⟩
  | step_habit d n hd ih =>
      obtain ⟨iht, ihn, ihh⟩ := ih
      unfold add_habit
      by_cases hn : pyStrip n = ""
      · rw [if_pos hn]
        exact ⟨iht, ihn, ihh⟩
      · rw [if_neg hn]
        refine ⟨iht, ihn, ?_⟩
        intro x hxmem
        rw [List.mem_append] at hxmem
        rcases hxmem with hin | hnew
        · exact ihh x hin
        · rw [List.mem_singleton] at hnew
          subst hnew
          exact pyStrip_idem n

/-- Witness for C9: a concrete reachable store built by one add of each
kind, from inputs carrying surrounding whitespace. -/
theorem creates_store_trimmed_witness :
    createdFieldsTrimmed
      (add_habit
        (add_note (add_task emptyStore "  read  " "Low" "2026-10-12") " T " " body " "2026-10-12")
        " gym ") :=
  creates_store_trimmed _
    (ReachableByCreates.step_habit _ _
      (ReachableByCreates.step_note _ _ _ _
        (ReachableByCreates.step_task _ _ _ _ ReachableByCreates.init)))

/-- C10: a task record lacking the status key is counted as not completed
(so pending) by the summary and is displayed as Pending; a habit record
lacking the streak key is treated as streak 0 by the Mark-today handler
before incrementing, yielding streak 1. -/
theorem missing_field_defaults (d : Store) (t : Task) (i : Nat) (h : Habit)
    (ht : t.status = none) (htasks : d.tasks = [t]) (hh : d.habits[i]? = some h)
    (hs : h.streak = none) :
    completed d = 0 ∧ pending d = 1 ∧ task_display_status t = "Pending" ∧
    ∃ d2, mark_habit_today d i = some d2 ∧
      d2.habits[i]? = some { h with streak := some 1 } := by
  have hi : i < d.habits.length := by
    by_contra hcon
    push_neg at hcon
    rw [List.getElem?_eq_none hcon] at hh
    exact Option.noConfusion hh
  have hc : completed d = 0 := by
    simp [completed, htasks, List.countP_cons, ht]
  refine ⟨hc, ?_, ?_, ?_⟩
  · simp [pending, total_tasks, htasks, hc]
  · simp [task_display_status, ht]
  · refine Exists.intro
      { d with habits := d.habits.set i ({ h with streak := some 1 }) } ⟨?_, ?_⟩
    · unfold mark_habit_today
      rw [hh]
      show some ({ d with habits := d.habits.set i ({ h with streak := some (h.streak.getD 0 + 1) }) } : Store) = some ({ d with habits := d.habits.set i ({ h with streak := some 1 }) } : Store)
      rw [hs]
      rfl
    · show (d.habits.set i ({ h with streak := some 1 }))[i]? = some { h with streak := some 1 }
      exact List.getElem?_set_self (by simpa using hi)

/-- Witness for C10 at a concrete store with a status-less task and a
streak-less habit. -/
theorem missing_field_defaults_witness :
    (⟨"old", "Low", "2026-01-01", none⟩ : Task).status = none ∧
    (Store.mk [⟨"old", "Low", "2026-01-01", none⟩] [] [⟨"gym", none⟩] []).tasks
      = [⟨"old", "Low", "2026-01-01", none⟩] ∧
    (Store.mk [⟨"old", "Low", "2026-01-01", none⟩] [] [⟨"gym", none⟩] []).habits[0]?
      = some ⟨"gym", none⟩ ∧
    ((⟨"gym", none⟩ : Habit).streak = none) ∧
    (completed (Store.mk [⟨"old", "Low", "2026-01-01", none⟩] [] [⟨"gym", none⟩] []) = 0 ∧
     pending (Store.mk [⟨"old", "Low", "2026-01-01", none⟩] [] [⟨"gym", none⟩] []) = 1 ∧
     task_display_status (⟨"old", "Low", "2026-01-01", none⟩ : Task) = "Pending" ∧
     ∃ d2, mark_habit_today (Store.mk [⟨"old", "Low", "2026-01-01", none⟩] [] [⟨"gym", none⟩] []) 0
         = some d2 ∧
       d2.habits[0]? = some (⟨"gym", some 1⟩ : Habit)) :=
  ⟨rfl, rfl, by decide, rfl,
   missing_field_defaults (Store.mk [⟨"old", "Low", "2026-01-01", none⟩] [] [⟨"gym", none⟩] [])
     ⟨"old", "Low", "2026-01-01", none⟩ 0 ⟨"gym", none⟩ rfl rfl (by decide) rfl⟩

end Dashboard
